import Mathlib

/-!
Verification of the orchestration core of the multi-LoRA Flux predictor
(src/predict.py).  Pure fragments of the Python source are embedded as
executable Lean definitions; stateful fragments (the LoRA adapter
management and the output-collection loop) are embedded as explicit
state-passing functions producing an event trace.  Python machine floats
that enter the geometry computation are modelled exactly over the
rationals.
-/

namespace FluxMultiLora

/-- MAX_IMAGE_SIZE from src/predict.py line 22. -/
def MAX_IMAGE_SIZE : ℕ := 1440

/-- The ASPECT_RATIOS table from src/predict.py lines 29-41, an ordered
association list from aspect-ratio token to (width, height). -/
def ASPECT_RATIOS : List (String × ℕ × ℕ) :=
  [ ("1:1", (1024, 1024)),
    ("16:9", (1344, 768)),
    ("21:9", (1536, 640)),
    ("3:2", (1216, 832)),
    ("2:3", (832, 1216)),
    ("4:5", (896, 1088)),
    ("5:4", (1088, 896)),
    ("3:4", (896, 1152)),
    ("4:3", (1152, 896)),
    ("9:16", (768, 1344)),
    ("9:21", (640, 1536)) ]

/-- aspect_ratio_to_width_height from src/predict.py lines 115-116:
a dictionary lookup; an unknown token has no entry (Python raises
KeyError, modelled by none). -/
def aspect_ratio_to_width_height ( aspect_ratio : String) : Option (ℕ × ℕ) :=
  (ASPECT_RATIOS.find? (fun p => p.1 == aspect_ratio)).map (fun p => p.2)

/-- make_multiple_of_16 from src/predict.py lines 129-131:
((n + 15) // 16) * 16 with Python integer floor division. -/
def make_multiple_of_16 (n : ℕ) : ℕ := ((n + 15) / 16) * 16

/-- The image-branch geometry computation of predict, src/predict.py
lines 241-247: scale = min(MAX_IMAGE_SIZE / width, MAX_IMAGE_SIZE / height, 1);
if scale < 1 both dimensions are downscaled (Python int() truncation of a
nonnegative product is the floor); then each is rounded up to a multiple
of 16.  Python float arithmetic is modelled exactly over ℚ. -/
def imageGeometry (w h : ℕ) : ℕ × ℕ :=
  let scale : ℚ := min (min ((MAX_IMAGE_SIZE : ℚ) / w) ((MAX_IMAGE_SIZE : ℚ) / h)) 1
  let w1 : ℕ := if scale < 1 then ((w : ℚ) * scale).floor.toNat else w
  let h1 : ℕ := if scale < 1 then ((h : ℚ) * scale).floor.toNat else h
  (make_multiple_of_16 w1, make_multiple_of_16 h1)

/-- The geometry outcome of one predict call, src/predict.py lines 227-253:
fluxWidth/fluxHeight are the "width"/"height" entries of flux_kwargs, set
once at line 230 from the aspect-ratio lookup; interpSize is the (width,
height) the seed image is interpolated to in the image branch.  The image
branch reassigns the local width/height variables but never writes them
back into flux_kwargs. -/
structure GeometryOutcome where
  fluxWidth : ℕ
  fluxHeight : ℕ
  interpSize : Option (ℕ × ℕ)
deriving DecidableEq

/-- predict geometry flow, src/predict.py lines 227-253: flux_kwargs is
built from the aspect-ratio table before the image branch runs; the image
branch only computes the interpolation size for the seed image. -/
def predictGeometry ( aspect_ratio : String) (image : Option (ℕ × ℕ)) :
    Option GeometryOutcome :=
  match aspect_ratio_to_width_height aspect_ratio with
  | none => none
  | some (w0, h0) =>
    match image with
    | none => some ⟨w0, h0, none⟩
    | some (iw, ih) => some ⟨w0, h0, some (imageGeometry iw ih)⟩

lemma make_multiple_of_16_dvd (n : ℕ) : 16 ∣ make_multiple_of_16 n :=
  ⟨(n + 15) / 16, (Nat.mul_comm _ _)⟩

lemma imageGeometry_no_downscale {w h : ℕ} (hw : 0 < w) (hh : 0 < h)
    (hw2 : w ≤ 1440) (hh2 : h ≤ 1440) :
    imageGeometry w h = (make_multiple_of_16 w, make_multiple_of_16 h) := by
  have hwq : (1 : ℚ) ≤ (MAX_IMAGE_SIZE : ℚ) / w := by
    rw [le_div_iff₀ (by exact_mod_cast hw)]
    simpa [MAX_IMAGE_SIZE] using (by exact_mod_cast hw2 : (w : ℚ) ≤ 1440)
  have hhq : (1 : ℚ) ≤ (MAX_IMAGE_SIZE : ℚ) / h := by
    rw [le_div_iff₀ (by exact_mod_cast hh)]
    simpa [MAX_IMAGE_SIZE] using (by exact_mod_cast hh2 : (h : ℚ) ≤ 1440)
  have hscale : ¬ min (min ((MAX_IMAGE_SIZE : ℚ) / w) ((MAX_IMAGE_SIZE : ℚ) / h)) 1 < 1 := by
    simp only [not_lt, le_min_iff]
    exact ⟨⟨hwq, hhq⟩, le_refl 1⟩
  simp only [imageGeometry, if_neg hscale]

/-- C7: for every seed image with positive natural dimensions, the
image-branch geometry is computed by scale = min(1440/w, 1440/h, 1),
proportional downscaling when scale < 1, then rounding each dimension up
via ((n+15)//16)*16; consequently both resolved dimensions are divisible
by 16, and an image already at most 1440 on both edges is only aligned,
never downscaled. -/
theorem imageGeometry_spec (w h : ℕ) (hw : 0 < w) (hh : 0 < h) :
    16 ∣ (imageGeometry w h).1 ∧ 16 ∣ (imageGeometry w h).2 ∧
    (w ≤ 1440 → h ≤ 1440 →
      imageGeometry w h = (make_multiple_of_16 w, make_multiple_of_16 h)) := by
  refine ⟨?_, ?_, fun hw2 hh2 => imageGeometry_no_downscale hw hh hw2 hh2⟩
  · simp only [imageGeometry]
    exact make_multiple_of_16_dvd _
  · simp only [imageGeometry]
    exact make_multiple_of_16_dvd _

/-- Witness for C7 at the concrete seed image 500 x 800: no downscaling,
alignment gives (512, 800). -/
theorem imageGeometry_spec_witness :
    (0 < 500 ∧ 0 < 800) ∧
    (16 ∣ (imageGeometry 500 800).1 ∧ 16 ∣ (imageGeometry 500 800).2 ∧
      (500 ≤ 1440 → 800 ≤ 1440 →
        imageGeometry 500 800 = (make_multiple_of_16 500, make_multiple_of_16 800))) :=
  ⟨⟨by decide, by decide⟩, imageGeometry_spec 500 800 (by decide) (by decide)⟩

/-- C8: the aspect-ratio lookup returns exactly the tabulated pair for
each of the 11 tokens, and both coordinates of every tabulated pair are
divisible by 16. -/
theorem aspect_ratio_table_spec :
    aspect_ratio_to_width_height "1:1" = some (1024, 1024) ∧
    aspect_ratio_to_width_height "16:9" = some (1344, 768) ∧
    aspect_ratio_to_width_height "21:9" = some (1536, 640) ∧
    aspect_ratio_to_width_height "3:2" = some (1216, 832) ∧
    aspect_ratio_to_width_height "2:3" = some (832, 1216) ∧
    aspect_ratio_to_width_height "4:5" = some (896, 1088) ∧
    aspect_ratio_to_width_height "5:4" = some (1088, 896) ∧
    aspect_ratio_to_width_height "3:4" = some (896, 1152) ∧
    aspect_ratio_to_width_height "4:3" = some (1152, 896) ∧
    aspect_ratio_to_width_height "9:16" = some (768, 1344) ∧
    aspect_ratio_to_width_height "9:21" = some (640, 1536) ∧
    ASPECT_RATIOS.length = 11 ∧
    ∀ p ∈ ASPECT_RATIOS, 16 ∣ p.2.1 ∧ 16 ∣ p.2.2 := by
  decide

/-! ## Adapter manager (load_loras, src/predict.py lines 133-152, and the
adapter section of predict, lines 258-269)

The self.txt2img_pipe calls are modelled as an event trace; the mutable
field self.last_loaded_loras is threaded explicitly.  Its initial value
is the empty dict from setup (line 58), which compares unequal to every
list in Python; it is modelled as none, a loaded list as some names. -/

/-- A call the adapter code makes on the shared pipeline object. -/
inductive LoraEvent where
  | unloadLoraWeights : LoraEvent
  | loadLoraWeights (filename : String) (adapterName : String) : LoraEvent
  | setAdapters (adapterNames : List String) (adapterWeights : List ℚ) : LoraEvent
deriving DecidableEq

/-- How the adapter code can fail: the os.path.exists check at line 142
(FileNotFoundError) or the names[count] access at line 144 overrunning
the 26-letter list (IndexError). -/
inductive LoraError where
  | fileNotFound (path : String) : LoraError
  | indexOutOfRange : LoraError
deriving DecidableEq

/-- The names list of load_loras, src/predict.py lines 134-137. -/
def letterNames : List String :=
  ["a","b","c","d","e","f","g","h","i","j","k","l","m",
   "n","o","p","q","r","s","t","u","v","w","x","y","z"]

/-- The loop of load_loras, src/predict.py lines 140-147: per filename,
check the file exists, take names[count] (raising IndexError when count
is past the 26 letters), increment count, and load the weights.  Returns
the events issued, the error that aborted the loop if any, and the final
count. -/
def loadLorasLoop (filesPresent : String → Bool) :
    ℕ → List String → List LoraEvent × Option LoraError × ℕ
  | count, [] => ([], none, count)
  | count, f :: rest =>
    if filesPresent f then
      match letterNames.get? count with
      | none => ([], some .indexOutOfRange, count)
      | some a =>
        let r := loadLorasLoop filesPresent (count + 1) rest
        (.loadLoraWeights f a :: r.1, r.2.1, r.2.2)
    else ([], some (.fileNotFound f), count)

/-- Result of one load_loras call: the pipeline calls issued, the
exception if one escaped, and the value of self.last_loaded_loras after
the call (unchanged, i.e. carried over, when the loop raised before
line 151). -/
structure LoadLorasResult where
  events : List LoraEvent
  error : Option LoraError
  lastLoadedLoras : Option (List String)
deriving DecidableEq

/-- load_loras from src/predict.py lines 133-152: run the loading loop;
on success set self.last_loaded_loras = lora_names (line 151) and issue
one batched set_adapters call with names[:count] and lora_scales[:count]
(lines 149-152).  On an exception the tracked state keeps its previous
value last0. -/
def load_loras (filesPresent : String → Bool) (last0 : Option (List String))
    (lora_names : List String) (lora_scales : List ℚ) : LoadLorasResult :=
  let r := loadLorasLoop filesPresent 0 lora_names
  match r.2.1 with
  | some e => ⟨r.1, some e, last0⟩
  | none =>
    ⟨r.1 ++ [.setAdapters (letterNames.take r.2.2) (lora_scales.take r.2.2)],
      none, some lora_names⟩

/-- Outcome of the adapter section of one predict call. -/
structure AdapterOutcome where
  events : List LoraEvent
  lastLoadedLoras : Option (List String)
  jointAttentionScale : Option ℚ
  loadLorasInvoked : Bool
  error : Option LoraError
deriving DecidableEq

/-- The lora_scales defaulting of predict, src/predict.py lines 262-265:
0.8 per adapter when lora_scales is falsy (None or the empty list),
broadcast of a single scale when several adapters are requested,
otherwise passed through unchanged. -/
def resolveLoraScales (hf_loras : List String) (lora_scales : List ℚ) : List ℚ :=
  if lora_scales = [] then List.replicate hf_loras.length (4/5 : ℚ)
  else if lora_scales.length = 1 ∧ 1 < hf_loras.length then
    List.replicate hf_loras.length lora_scales.headI
  else lora_scales

/-- The adapter section of predict, src/predict.py lines 258-269
(the operation the spec names ensureAdapters).  hf_loras truthiness:
a nonempty list enters the first branch.  Inside it, the swap runs only
when hf_loras != self.last_loaded_loras (names only); lora_scales is
resolved by resolveLoraScales and load_loras is called.  An empty
hf_loras unloads all adapters but writes nothing to the tracked state
(lines 267-269). -/
def ensureAdapters (filesPresent : String → Bool) (last0 : Option (List String))
    (hf_loras : List String) (lora_scales : List ℚ) : AdapterOutcome :=
  if hf_loras ≠ [] then
    if some hf_loras ≠ last0 then
      let r := load_loras filesPresent last0 hf_loras
        (resolveLoraScales hf_loras lora_scales)
      ⟨.unloadLoraWeights :: r.events, r.lastLoadedLoras, some 1, true, r.error⟩
    else ⟨[], last0, some 1, false, none⟩
  else ⟨[.unloadLoraWeights], last0, none, false, none⟩

/-- Number of load_lora_weights calls in a trace. -/
def loadWeightsCount (evs : List LoraEvent) : ℕ :=
  (evs.filter (fun e => match e with | .loadLoraWeights _ _ => true | _ => false)).length

/-- The batched set_adapters calls in a trace, with their arguments. -/
def setAdaptersCalls (evs : List LoraEvent) : List (List String × List ℚ) :=
  evs.filterMap (fun e => match e with
    | .setAdapters ns ws => some (ns, ws)
    | _ => none)

lemma letterNames_length : letterNames.length = 26 := rfl

lemma loadWeightsCount_cons_load (f a : String) (evs : List LoraEvent) :
    loadWeightsCount (.loadLoraWeights f a :: evs) = loadWeightsCount evs + 1 := by
  simp [loadWeightsCount, List.filter_cons]

lemma setAdaptersCalls_cons_load (f a : String) (evs : List LoraEvent) :
    setAdaptersCalls (.loadLoraWeights f a :: evs) = setAdaptersCalls evs := by
  simp [setAdaptersCalls, List.filterMap_cons]

lemma loadWeightsCount_append (evs1 evs2 : List LoraEvent) :
    loadWeightsCount (evs1 ++ evs2) = loadWeightsCount evs1 + loadWeightsCount evs2 := by
  simp [loadWeightsCount, List.filter_append]

lemma setAdaptersCalls_append (evs1 evs2 : List LoraEvent) :
    setAdaptersCalls (evs1 ++ evs2) = setAdaptersCalls evs1 ++ setAdaptersCalls evs2 := by
  simp [setAdaptersCalls, List.filterMap_append]

lemma loadLorasLoop_success (fp : String → Bool) :
    ∀ (names : List String) (count : ℕ),
    (∀ f ∈ names, fp f = true) → count + names.length ≤ 26 →
    (loadLorasLoop fp count names).2.1 = none ∧
    (loadLorasLoop fp count names).2.2 = count + names.length ∧
    loadWeightsCount (loadLorasLoop fp count names).1 = names.length ∧
    setAdaptersCalls (loadLorasLoop fp count names).1 = [] := by
  intro names
  induction names with
  | nil =>
    intro count _ _
    simp [loadLorasLoop, loadWeightsCount, setAdaptersCalls]
  | cons f rest ih =>
    intro count hfp hlen
    have hf : fp f = true := hfp f (List.mem_cons_self f rest)
    have hcount : count < letterNames.length := by
      rw [letterNames_length]
      simp only [List.length_cons] at hlen
      omega
    obtain ⟨a, ha⟩ : ∃ a, letterNames.get? count = some a :=
      ⟨letterNames.get ⟨count, hcount⟩, List.get?_eq_get hcount⟩
    have hrest := ih (count + 1)
      (fun g hg => hfp g (List.mem_cons_of_mem f hg))
      (by simp only [List.length_cons] at hlen; omega)
    simp only [loadLorasLoop, hf, if_true, ha]
    refine ⟨hrest.1, ?_, ?_, ?_⟩
    · rw [hrest.2.1]
      simp only [List.length_cons]
      omega
    · rw [loadWeightsCount_cons_load, hrest.2.2.1, List.length_cons]
    · rw [setAdaptersCalls_cons_load]
      exact hrest.2.2.2

lemma loadLorasLoop_overflow (fp : String → Bool) :
    ∀ (names : List String) (count : ℕ),
    (∀ f ∈ names, fp f = true) → count ≤ 26 → 26 < count + names.length →
    (loadLorasLoop fp count names).2.1 = some .indexOutOfRange ∧
    loadWeightsCount (loadLorasLoop fp count names).1 = 26 - count ∧
    setAdaptersCalls (loadLorasLoop fp count names).1 = [] := by
  intro names
  induction names with
  | nil =>
    intro count _ hle hgt
    simp only [List.length_nil, Nat.add_zero] at hgt
    omega
  | cons f rest ih =>
    intro count hfp hle hgt
    have hf : fp f = true := hfp f (List.mem_cons_self f rest)
    by_cases hc : count < 26
    · have hcount : count < letterNames.length := by rw [letterNames_length]; exact hc
      obtain ⟨a, ha⟩ : ∃ a, letterNames.get? count = some a :=
        ⟨letterNames.get ⟨count, hcount⟩, List.get?_eq_get hcount⟩
      have hrest := ih (count + 1)
        (fun g hg => hfp g (List.mem_cons_of_mem f hg))
        (by omega)
        (by simp only [List.length_cons] at hgt; omega)
      simp only [loadLorasLoop, hf, if_true, ha]
      refine ⟨hrest.1, ?_, ?_⟩
      · rw [loadWeightsCount_cons_load, hrest.2.1]
        omega
      · rw [setAdaptersCalls_cons_load]
        exact hrest.2.2
    · have hc26 : count = 26 := by omega
      have hnone : letterNames.get? count = none := by
        apply List.get?_eq_none.mpr
        rw [letterNames_length]; omega
      simp only [loadLorasLoop, hf, if_true, hnone]
      subst hc26
      simp [loadWeightsCount, setAdaptersCalls]

lemma load_loras_success (fp : String → Bool) (last0 : Option (List String))
    (lora_names : List String) (lora_scales : List ℚ)
    (hfp : ∀ f ∈ lora_names, fp f = true) (hlen : lora_names.length ≤ 26) :
    (load_loras fp last0 lora_names lora_scales).error = none ∧
    (load_loras fp last0 lora_names lora_scales).lastLoadedLoras = some lora_names ∧
    loadWeightsCount (load_loras fp last0 lora_names lora_scales).events =
      lora_names.length ∧
    setAdaptersCalls (load_loras fp last0 lora_names lora_scales).events =
      [(letterNames.take lora_names.length, lora_scales.take lora_names.length)] := by
  have h := loadLorasLoop_success fp lora_names 0 hfp (by omega)
  simp only [Nat.zero_add] at h
  simp only [load_loras, h.1, h.2.1]
  refine ⟨trivial, trivial, ?_, ?_⟩
  · rw [loadWeightsCount_append, h.2.2.1]
    simp [loadWeightsCount]
  · rw [setAdaptersCalls_append, h.2.2.2]
    simp [setAdaptersCalls]

lemma load_loras_overflow (fp : String → Bool) (last0 : Option (List String))
    (lora_names : List String) (lora_scales : List ℚ)
    (hfp : ∀ f ∈ lora_names, fp f = true) (hlen : 27 ≤ lora_names.length) :
    (load_loras fp last0 lora_names lora_scales).error = some .indexOutOfRange ∧
    (load_loras fp last0 lora_names lora_scales).lastLoadedLoras = last0 ∧
    loadWeightsCount (load_loras fp last0 lora_names lora_scales).events = 26 ∧
    setAdaptersCalls (load_loras fp last0 lora_names lora_scales).events = [] := by
  have h := loadLorasLoop_overflow fp lora_names 0 hfp (by omega) (by omega)
  simp only [Nat.sub_zero] at h
  simp only [load_loras, h.1]
  exact ⟨trivial, trivial, h.2.1, h.2.2⟩

lemma setAdaptersCalls_cons_unload (evs : List LoraEvent) :
    setAdaptersCalls (.unloadLoraWeights :: evs) = setAdaptersCalls evs := by
  simp [setAdaptersCalls, List.filterMap_cons]

lemma resolveLoraScales_passthrough (hf_loras : List String) (lora_scales : List ℚ)
    (h : 1 < lora_scales.length) :
    resolveLoraScales hf_loras lora_scales = lora_scales := by
  have h1 : lora_scales ≠ [] := by
    intro he
    rw [he] at h
    simp at h
  have h2 : ¬ (lora_scales.length = 1 ∧ 1 < hf_loras.length) := by
    rintro ⟨he, -⟩
    omega
  simp only [resolveLoraScales, if_neg h1, if_neg h2]

lemma ensureAdapters_reload (fp : String → Bool) (last0 : Option (List String))
    (hf_loras : List String) (lora_scales : List ℚ)
    (hne : hf_loras ≠ []) (hdiff : some hf_loras ≠ last0)
    (hfp : ∀ f ∈ hf_loras, fp f = true) (hlen : hf_loras.length ≤ 26) :
    ensureAdapters fp last0 hf_loras lora_scales =
      ⟨.unloadLoraWeights ::
          (load_loras fp last0 hf_loras (resolveLoraScales hf_loras lora_scales)).events,
        some hf_loras, some 1, true, none⟩ := by
  have hs := load_loras_success fp last0 hf_loras
    (resolveLoraScales hf_loras lora_scales) hfp hlen
  simp only [ensureAdapters, if_pos hne, if_pos hdiff]
  rw [hs.1, hs.2.1]

/-- C2: two consecutive calls of the adapter-ensuring operation with the
same requested (nonempty, loadable) adapter set, starting from a tracked
state that differs from the request, perform the swap only once: the
first call invokes load_loras, and the second call is a no-op (no
pipeline events, load_loras not invoked, tracked state unchanged). -/
theorem ensureAdapters_idempotent (fp : String → Bool) (last0 : Option (List String))
    (hf_loras : List String) (lora_scales : List ℚ)
    (hne : hf_loras ≠ []) (hlen : hf_loras.length ≤ 26)
    (hfp : ∀ f ∈ hf_loras, fp f = true) (hdiff : some hf_loras ≠ last0) :
    (ensureAdapters fp last0 hf_loras lora_scales).loadLorasInvoked = true ∧
    ensureAdapters fp (ensureAdapters fp last0 hf_loras lora_scales).lastLoadedLoras
        hf_loras lora_scales =
      ⟨[], (ensureAdapters fp last0 hf_loras lora_scales).lastLoadedLoras,
        some 1, false, none⟩ := by
  have h1 := ensureAdapters_reload fp last0 hf_loras lora_scales hne hdiff hfp hlen
  rw [h1]
  refine ⟨rfl, ?_⟩
  simp only [ensureAdapters, if_pos hne]
  rw [if_neg (by simp)]

/-- Witness for C2 at a concrete request: one adapter file, default
scales, fresh state, all files present. -/
theorem ensureAdapters_idempotent_witness :
    ((["x"] : List String) ≠ [] ∧ (["x"] : List String).length ≤ 26 ∧
      (∀ f ∈ (["x"] : List String), (fun _ => true) f = true) ∧
      some (["x"] : List String) ≠ (none : Option (List String))) ∧
    ((ensureAdapters (fun _ => true) none ["x"] []).loadLorasInvoked = true ∧
      ensureAdapters (fun _ => true)
          (ensureAdapters (fun _ => true) none ["x"] []).lastLoadedLoras ["x"] [] =
        ⟨[], (ensureAdapters (fun _ => true) none ["x"] []).lastLoadedLoras,
          some 1, false, none⟩) :=
  ⟨⟨by decide, by decide, fun f _ => rfl, by decide⟩,
    ensureAdapters_idempotent (fun _ => true) none ["x"] []
      (by decide) (by decide) (fun f _ => rfl) (by decide)⟩

/-- C4 counterexample: two consecutive requests naming the same single
adapter with different scales (0.8 then 0.5); the second request does
not trigger any reload: no pipeline events at all and load_loras is not
invoked. -/
theorem scaleChangeReload_cex :
    (ensureAdapters (fun _ => true)
        (ensureAdapters (fun _ => true) none ["x"] [(4/5 : ℚ)]).lastLoadedLoras
        ["x"] [(1/2 : ℚ)]).loadLorasInvoked = false ∧
    (ensureAdapters (fun _ => true)
        (ensureAdapters (fun _ => true) none ["x"] [(4/5 : ℚ)]).lastLoadedLoras
        ["x"] [(1/2 : ℚ)]).events = [] ∧
    ((4/5 : ℚ)) ≠ ((1/2 : ℚ)) :=
  ⟨by decide, by decide, by norm_num⟩

/-- C4 amended: a scale-only change does NOT trigger a reload: after a
request that applied the adapter list with scales s1, a second request
with the same ordered list and different scales s2 is a complete no-op
(no unload, no load, the new scales are ignored). -/
theorem scaleChange_skips_reload (fp : String → Bool) (last0 : Option (List String))
    (hf_loras : List String) (s1 s2 : List ℚ)
    (hne : hf_loras ≠ []) (hlen : hf_loras.length ≤ 26)
    (hfp : ∀ f ∈ hf_loras, fp f = true) (hdiff : some hf_loras ≠ last0)
    (hs : s1 ≠ s2) :
    ensureAdapters fp (ensureAdapters fp last0 hf_loras s1).lastLoadedLoras
        hf_loras s2 =
      ⟨[], (ensureAdapters fp last0 hf_loras s1).lastLoadedLoras,
        some 1, false, none⟩ := by
  have h1 := ensureAdapters_reload fp last0 hf_loras s1 hne hdiff hfp hlen
  rw [h1]
  simp only [ensureAdapters, if_pos hne]
  rw [if_neg (by simp)]

/-- Witness for C4 amended at the concrete scale change 0.8 to 0.5. -/
theorem scaleChange_skips_reload_witness :
    ((["x"] : List String) ≠ [] ∧ (["x"] : List String).length ≤ 26 ∧
      (∀ f ∈ (["x"] : List String), (fun _ => true) f = true) ∧
      some (["x"] : List String) ≠ (none : Option (List String)) ∧
      ([(4/5 : ℚ)]) ≠ ([(1/2 : ℚ)])) ∧
    ensureAdapters (fun _ => true)
        (ensureAdapters (fun _ => true) none ["x"] [(4/5 : ℚ)]).lastLoadedLoras
        ["x"] [(1/2 : ℚ)] =
      ⟨[], (ensureAdapters (fun _ => true) none ["x"] [(4/5 : ℚ)]).lastLoadedLoras,
        some 1, false, none⟩ :=
  ⟨⟨by decide, by decide, fun f _ => rfl, by decide, by norm_num⟩,
    scaleChange_skips_reload (fun _ => true) none ["x"] [(4/5 : ℚ)] [(1/2 : ℚ)]
      (by decide) (by decide) (fun f _ => rfl) (by decide) (by norm_num)⟩

/-- C3 (code bug): an empty adapter request unloads all adapters from
the pipeline but does NOT clear the tracked last-applied set.  Concrete
run: request ["x"] from a fresh state, then request []; the empty
request issues only an unload yet leaves the tracked state at
some ["x"], so a third request for ["x"] skips load_loras entirely even
though the pipeline holds no adapters. -/
theorem emptyRequest_keeps_tracked_state :
    (ensureAdapters (fun _ => true)
        (ensureAdapters (fun _ => true) none ["x"] []).lastLoadedLoras [] []).events =
      [.unloadLoraWeights] ∧
    (ensureAdapters (fun _ => true)
        (ensureAdapters (fun _ => true) none ["x"] []).lastLoadedLoras
        [] []).lastLoadedLoras = some ["x"] ∧
    (ensureAdapters (fun _ => true)
        (ensureAdapters (fun _ => true)
            (ensureAdapters (fun _ => true) none ["x"] []).lastLoadedLoras
            [] []).lastLoadedLoras
        ["x"] []).loadLorasInvoked = false ∧
    (ensureAdapters (fun _ => true)
        (ensureAdapters (fun _ => true)
            (ensureAdapters (fun _ => true) none ["x"] []).lastLoadedLoras
            [] []).lastLoadedLoras
        ["x"] []).events = [] := by decide

/-- C5 amended: a request naming 27 or more adapters (all files present)
fails with an index-out-of-range error when assigning the 27th adapter
identifier, AFTER 26 load_lora_weights calls have already been issued;
no batched set_adapters call is made and the tracked state is kept. -/
theorem loraOverflow_spec (fp : String → Bool) (last0 : Option (List String))
    (lora_names : List String) (lora_scales : List ℚ)
    (hfp : ∀ f ∈ lora_names, fp f = true) (hlen : 27 ≤ lora_names.length) :
    (load_loras fp last0 lora_names lora_scales).error = some .indexOutOfRange ∧
    loadWeightsCount (load_loras fp last0 lora_names lora_scales).events = 26 ∧
    setAdaptersCalls (load_loras fp last0 lora_names lora_scales).events = [] ∧
    (load_loras fp last0 lora_names lora_scales).lastLoadedLoras = last0 := by
  have h := load_loras_overflow fp last0 lora_names lora_scales hfp hlen
  exact ⟨h.1, h.2.2.1, h.2.2.2, h.2.1⟩

/-- A concrete list of 27 distinct adapter file names. -/
def twentySevenLoras : List String :=
  ["f01","f02","f03","f04","f05","f06","f07","f08","f09","f10",
   "f11","f12","f13","f14","f15","f16","f17","f18","f19","f20",
   "f21","f22","f23","f24","f25","f26","f27"]

/-- C5 counterexample: on a request of 27 distinct adapters (all files
present) the failure is an IndexError, not a capacity check before
loading: 26 weight-load calls have occurred before it, contradicting
"no weight-load call is made prior to the failure". -/
theorem loraOverflow_cex :
    (load_loras (fun _ => true) none twentySevenLoras []).error =
      some .indexOutOfRange ∧
    loadWeightsCount (load_loras (fun _ => true) none twentySevenLoras []).events = 26 ∧
    loadWeightsCount (load_loras (fun _ => true) none twentySevenLoras []).events ≠ 0 := by
  decide

/-- Witness for C5 amended at the concrete 27-name request. -/
theorem loraOverflow_spec_witness :
    ((∀ f ∈ twentySevenLoras, (fun _ => true) f = true) ∧ 27 ≤ twentySevenLoras.length) ∧
    ((load_loras (fun _ => true) none twentySevenLoras []).error =
        some .indexOutOfRange ∧
      loadWeightsCount (load_loras (fun _ => true) none twentySevenLoras []).events = 26 ∧
      setAdaptersCalls (load_loras (fun _ => true) none twentySevenLoras []).events = [] ∧
      (load_loras (fun _ => true) none twentySevenLoras []).lastLoadedLoras = none) :=
  ⟨⟨fun f _ => rfl, by decide⟩,
    loraOverflow_spec (fun _ => true) none twentySevenLoras []
      (fun f _ => rfl) (by decide)⟩

/-- C10: when a reload is triggered and the caller supplies more than
one but fewer scales than adapters, no default or broadcast applies:
the single batched set_adapters call receives the scale list unchanged,
shorter than the adapter-name list. -/
theorem shortScaleList_passed_through (fp : String → Bool) (last0 : Option (List String))
    (hf_loras : List String) (lora_scales : List ℚ)
    (hne : hf_loras ≠ []) (hlen : hf_loras.length ≤ 26)
    (hfp : ∀ f ∈ hf_loras, fp f = true) (hdiff : some hf_loras ≠ last0)
    (hs1 : 1 < lora_scales.length) (hs2 : lora_scales.length < hf_loras.length) :
    setAdaptersCalls (ensureAdapters fp last0 hf_loras lora_scales).events =
      [(letterNames.take hf_loras.length, lora_scales)] ∧
    (letterNames.take hf_loras.length).length = hf_loras.length ∧
    lora_scales.length < (letterNames.take hf_loras.length).length := by
  have hres := resolveLoraScales_passthrough hf_loras lora_scales hs1
  have hload := load_loras_success fp last0 hf_loras
    (resolveLoraScales hf_loras lora_scales) hfp hlen
  have hlen2 : (letterNames.take hf_loras.length).length = hf_loras.length := by
    rw [List.length_take, letterNames_length]
    omega
  have h1 := ensureAdapters_reload fp last0 hf_loras lora_scales hne hdiff hfp hlen
  rw [h1]
  refine ⟨?_, hlen2, by rw [hlen2]; exact hs2⟩
  rw [setAdaptersCalls_cons_unload, hload.2.2.2, hres,
    List.take_of_length_le (Nat.le_of_lt hs2)]

/-- Witness for C10: three adapters, two scales. -/
theorem shortScaleList_passed_through_witness :
    ((["x","y","z"] : List String) ≠ [] ∧ (["x","y","z"] : List String).length ≤ 26 ∧
      (∀ f ∈ (["x","y","z"] : List String), (fun _ => true) f = true) ∧
      some (["x","y","z"] : List String) ≠ (none : Option (List String)) ∧
      1 < ([(1/2 : ℚ), (1/4 : ℚ)]).length ∧
      ([(1/2 : ℚ), (1/4 : ℚ)]).length < (["x","y","z"] : List String).length) ∧
    (setAdaptersCalls
        (ensureAdapters (fun _ => true) none ["x","y","z"]
          [(1/2 : ℚ), (1/4 : ℚ)]).events =
      [(letterNames.take (["x","y","z"] : List String).length,
        [(1/2 : ℚ), (1/4 : ℚ)])] ∧
      (letterNames.take (["x","y","z"] : List String).length).length =
        (["x","y","z"] : List String).length ∧
      ([(1/2 : ℚ), (1/4 : ℚ)]).length <
        (letterNames.take (["x","y","z"] : List String).length).length) :=
  ⟨⟨by decide, by decide, fun f _ => rfl, by decide, by decide, by decide⟩,
    shortScaleList_passed_through (fun _ => true) none ["x","y","z"]
      [(1/2 : ℚ), (1/4 : ℚ)] (by decide) (by decide) (fun f _ => rfl)
      (by decide) (by decide) (by decide)⟩

/-- C1 (code bug): flux_kwargs is built from the aspect-ratio token at
src/predict.py line 230 and never updated in the image branch, so the
width/height driving generation come from the token, not the seed image.
Concrete run: token "1:1" with a 500 x 800 seed image gives pipeline
kwargs (1024, 1024) while the image-derived geometry, used only to
interpolate the init tensor, is (512, 800). -/
theorem fluxKwargs_ignore_seed_image :
    predictGeometry "1:1" (some (500, 800)) =
      some ⟨1024, 1024, some (512, 800)⟩ ∧
    ((1024, 1024) : ℕ × ℕ) ≠ ((512, 800) : ℕ × ℕ) := by
  have h : imageGeometry 500 800 = (512, 800) := by
    rw [@imageGeometry_no_downscale 500 800 (by decide) (by decide) (by decide) (by decide)]
    decide
  have ha : aspect_ratio_to_width_height "1:1" = some (1024, 1024) := by decide
  refine ⟨?_, by decide⟩
  simp only [predictGeometry, ha, h]

/-! ## Safety filter and output collection (predict, src/predict.py
lines 286-302)

The batch is modelled by its indices; the per-index verdicts of the
safety checker are the has_nsfw_content list.  An output path is
persisted (the img.save calls at lines 296-298) exactly for the indices
the loop does not skip. -/

/-- The output-collection loop of predict, src/predict.py lines 289-299:
image i is skipped when the safety checker is enabled and flagged it;
otherwise it is saved and its path appended.  n is the batch size, equal
to has_nsfw_content.length whenever the checker ran. -/
def collectOutputPaths (disable_safety_checker : Bool)
    (has_nsfw_content : List Bool) (n : ℕ) : List ℕ :=
  (List.range n).filter
    (fun i => !(!disable_safety_checker && has_nsfw_content.getD i false))

/-- The tail of predict, src/predict.py lines 289-302: collect the
surviving output paths and raise (line 302) when none survived. -/
def predictOutputs (disable_safety_checker : Bool)
    (has_nsfw_content : List Bool) (n : ℕ) : Except String (List ℕ) :=
  let output_paths := collectOutputPaths disable_safety_checker has_nsfw_content n
  if output_paths = [] then
    .error "NSFW content detected. Try running it again, or try a different prompt."
  else .ok output_paths

/-- C6: with the safety checker enabled and every candidate in the batch
classified unsafe, the request raises the NSFW exception and zero output
paths are persisted; moreover, for all inputs, an empty list is never
returned as a success. -/
theorem allUnsafe_rejected (has_nsfw_content : List Bool)
    (hall : ∀ b ∈ has_nsfw_content, b = true) :
    (predictOutputs false has_nsfw_content has_nsfw_content.length =
        .error "NSFW content detected. Try running it again, or try a different prompt." ∧
      collectOutputPaths false has_nsfw_content has_nsfw_content.length = []) ∧
    ∀ (d : Bool) (v : List Bool) (n : ℕ) (l : List ℕ),
      predictOutputs d v n = .ok l → l ≠ [] := by
  have hempty : collectOutputPaths false has_nsfw_content has_nsfw_content.length = [] := by
    apply List.filter_eq_nil_iff.mpr
    intro i hi
    have hilt : i < has_nsfw_content.length := List.mem_range.mp hi
    have hget : has_nsfw_content[i]? = some true := by
      rw [List.getElem?_eq_getElem hilt]
      exact congrArg some (hall _ (List.getElem_mem hilt))
    simp [hget]
  refine ⟨⟨?_, hempty⟩, ?_⟩
  · simp only [predictOutputs, hempty, if_pos]
  · intro d v n l hok
    simp only [predictOutputs] at hok
    by_cases hp : collectOutputPaths d v n = []
    · rw [if_pos hp] at hok
      exact absurd hok (by simp)
    · rw [if_neg hp] at hok
      cases hok
      exact hp

/-- Witness for C6 at the concrete single-image batch flagged unsafe. -/
theorem allUnsafe_rejected_witness :
    (∀ b ∈ [true], b = true) ∧
    ((predictOutputs false [true] ([true] : List Bool).length =
        .error "NSFW content detected. Try running it again, or try a different prompt." ∧
      collectOutputPaths false [true] ([true] : List Bool).length = []) ∧
    ∀ (d : Bool) (v : List Bool) (n : ℕ) (l : List ℕ),
      predictOutputs d v n = .ok l → l ≠ []) :=
  ⟨by decide, allUnsafe_rejected [true] (by decide)⟩

/-! ## Automatic seed generation (predict, src/predict.py lines 223-224) -/

/-- int.from_bytes(bytes, "big"): big-endian base-256 accumulation. -/
def int_from_bytes_big (bytes : List ℕ) : ℕ :=
  bytes.foldl (fun acc b => acc * 256 + b) 0

/-- Automatic seed, src/predict.py line 224: int.from_bytes applied to
the two bytes of os.urandom(2). -/
def autoSeed (b0 b1 : ℕ) : ℕ := int_from_bytes_big [b0, b1]

/-- C9: a seed generated from the two random bytes always lies in
[0, 65535], and every value in that range is attained, so exactly 65536
distinct auto-generated seeds are possible. -/
theorem autoSeed_range (b0 b1 : ℕ) (h0 : b0 < 256) (h1 : b1 < 256) :
    autoSeed b0 b1 ≤ 65535 ∧
    ∀ s ≤ 65535, ∃ c0 c1, c0 < 256 ∧ c1 < 256 ∧ autoSeed c0 c1 = s := by
  constructor
  · simp only [autoSeed, int_from_bytes_big, List.foldl]
    omega
  · intro s hs
    refine ⟨s / 256, s % 256, by omega, by omega, ?_⟩
    simp only [autoSeed, int_from_bytes_big, List.foldl]
    omega

/-- Witness for C9 at the maximal byte pair. -/
theorem autoSeed_range_witness :
    (255 < 256 ∧ 255 < 256) ∧
    (autoSeed 255 255 ≤ 65535 ∧
      ∀ s ≤ 65535, ∃ c0 c1, c0 < 256 ∧ c1 < 256 ∧ autoSeed c0 c1 = s) :=
  ⟨⟨by decide, by decide⟩, autoSeed_range 255 255 (by decide) (by decide)⟩

end FluxMultiLora
